import Mathlib

/-!
Verification development for the component tree and command registry of the
deezcord.py repository.  The Python sources `discord/components.py` and
`discord/slash.py` are embedded shallowly: classes become structures,
constructors become `init` functions, `to_dict`/`from_dict` become pure
functions on payload structures, and code paths that raise a Python
exception return `Except PyErr`.

Conventions used throughout the embedding:
* the `MISSING` sentinel (from the repository's `utils.py`, not part of the
  shown sources; modelled from the spec, which treats it as "argument not
  supplied") is represented by an outer `Option` layer on an argument:
  `none` means the argument was omitted, `some v` means `v` was passed
  (where `v` itself can be an `Option` when Python also allows `None`);
* the random 20-character `custom_id` drawn from `string.printable` is
  modelled by an explicit `fresh : String` argument standing for the drawn
  string (randomness made an explicit input);
* enums (`ComponentType`, `ButtonStyle`, `ApplicationCommandType`,
  `OptionType` from the repository's `enums.py`, which is not among the
  shown sources) are modelled from the spec's wire schema: component types
  action_row=1 button=2 select=3, command types chat_input=1 user=2
  message=3, option types subcommand=1 subcommand_group=2, and enum values
  compare equal to their integer wire value;
* `PartialEmoji` (also not among the shown sources) is carried opaquely as
  the `String` serialization of its payload; `from_dict`/`to_dict` on it
  are modelled as the identity, per the spec ("unset emoji dict missing
  expected keys is treated as no emoji present").
-/

/-- Python exceptions that the embedded code can raise. -/
inductive PyErr where
  | keyError (msg : String)
  | typeError
  | indexError
  | attributeError
deriving DecidableEq, Repr

/-- The zero-width space used by the source as default label/description. -/
def zwsp : String := "\u200B"

/-- Truthiness of a Python `Optional[str]`: `None` and `""` are falsy. -/
def pyTruthy : Option String → Bool
  | some v => v != ""
  | none => false

/-- Python `a or d` for an `Optional[int]` argument: `None` and `0` are falsy. -/
def pyOrInt (a : Option Int) (d : Int) : Int :=
  match a with
  | some v => if v = 0 then d else v
  | none => d

/-- `ButtonStyle` from the repository's `enums.py` (not among the shown
sources; modelled from the spec's wire schema, with the standard wire
values 1..5 — only their distinctness and the identity of the link style
matter to the embedded code). -/
inductive ButtonStyle where
  | primary
  | secondary
  | success
  | danger
  | link
deriving DecidableEq, Repr

/-- Integer wire value of a button style (`int(self.style)`). -/
def ButtonStyle.val : ButtonStyle → Nat
  | .primary => 1
  | .secondary => 2
  | .success => 3
  | .danger => 4
  | .link => 5

/-- Alias used by `Button.__init__` (`ButtonStyle.gray`). -/
def ButtonStyle.gray : ButtonStyle := ButtonStyle.secondary

/-- Alias used by `LinkButton.__init__` (`ButtonStyle.url`). -/
def ButtonStyle.url : ButtonStyle := ButtonStyle.link

/-- `get_enum(ButtonStyle, value)`: wire value back to the enum. -/
def ButtonStyle.ofVal (n : Nat) : ButtonStyle :=
  if n = 1 then .primary
  else if n = 2 then .secondary
  else if n = 3 then .success
  else if n = 4 then .danger
  else .link

/-- State of a `BaseButton` object (`components.py` lines 100-128): slots
`style`, `custom_id`, `url`, `label`, `disabled`, `emoji`.  `label` and
`disabled` are `Option` because `from_dict` can assign Python `None` to
them. -/
structure BaseButton where
  style : ButtonStyle
  custom_id : Option String
  url : Option String
  label : Option String
  disabled : Option Bool
  emoji : Option String
deriving DecidableEq, Repr

/-- `BaseButton.__init__` (`components.py` lines 113-128).
`custom_id`/`label` use the MISSING convention (outer `Option` = supplied?),
`fresh` is the 20-character random string drawn when `custom_id` is MISSING
and no url is given. -/
def BaseButton.init (style : ButtonStyle) (custom_id : Option (Option String))
    (url : Option String) (disabled : Option Bool) (label : Option (Option String))
    (emoji : Option String) (fresh : String) : BaseButton :=
  { style := style
    custom_id :=
      if url = none then
        match custom_id with
        | none => some fresh
        | some v => v
      else none
    url := url
    label :=
      match label with
      | none => some zwsp
      | some v => v
    disabled := disabled
    emoji := emoji }

/-- `Button.__init__` (`components.py` lines 155-156): forwards to
`BaseButton.__init__` with `url=None`. -/
def Button.init (label : Option (Option String)) (style : ButtonStyle)
    (custom_id : Option (Option String)) (emoji : Option String)
    (disabled : Option Bool) (fresh : String) : BaseButton :=
  BaseButton.init style custom_id none disabled label emoji fresh

/-- `LinkButton.__init__` (`components.py` lines 167-168): forwards to
`BaseButton.__init__` with `style=ButtonStyle.url` and `custom_id` MISSING. -/
def LinkButton.init (url : Option String) (label : Option (Option String))
    (emoji : Option String) (disabled : Option Bool) (fresh : String) : BaseButton :=
  BaseButton.init ButtonStyle.url none url disabled label emoji fresh

/-- Wire payload of a button (`{type, style, label, disabled, custom_id?,
url?, emoji?}`).  `type`/`style` are always present; `label`/`disabled` are
always emitted but may carry Python `None`; `custom_id`/`url`/`emoji` are
omitted when falsy (`none` = key absent). -/
structure ButtonPayload where
  type : Nat
  style : Nat
  label : Option String
  disabled : Option Bool
  custom_id : Option String
  url : Option String
  emoji : Option String
deriving DecidableEq, Repr

/-- `BaseButton.to_dict` (`components.py` lines 130-146). -/
def BaseButton.to_dict (b : BaseButton) : ButtonPayload :=
  { type := 2
    style := b.style.val
    label := b.label
    disabled := b.disabled
    custom_id := if pyTruthy b.custom_id then b.custom_id else none
    url := if pyTruthy b.url then b.url else none
    emoji := b.emoji }

/-- `Button.from_dict` (`components.py` lines 157-165): every field is read
with `.get`, so absent keys arrive as `None` (supplied, not MISSING). -/
def Button.from_dict (d : ButtonPayload) (fresh : String) : BaseButton :=
  Button.init (some d.label) (ButtonStyle.ofVal d.style) (some d.custom_id)
    d.emoji d.disabled fresh

/-- `LinkButton.from_dict` (`components.py` lines 169-176).  The source
reads `data.get("disabledö")` — a misspelled key that neither the wire
schema nor any `to_dict` output contains — so the `disabled` argument is
always Python `None`. -/
def LinkButton.from_dict (d : ButtonPayload) (fresh : String) : BaseButton :=
  LinkButton.init d.url (some d.label) d.emoji none fresh

/-- `BaseButton.from_dict` (`components.py` lines 148-152): dispatches on
`data['style'] == ButtonStyle.link`. -/
def BaseButton.from_dict (d : ButtonPayload) (fresh : String) : BaseButton :=
  if d.style = ButtonStyle.link.val then LinkButton.from_dict d fresh
  else Button.from_dict d fresh

/-- State of a `SelectOption` (`components.py` lines 228-254). -/
structure SelectOption where
  label : String
  value : String
  description : Option String
  emoji : Option String
  default : Bool
deriving DecidableEq, Repr

/-- `SelectOption.__init__` (`components.py` lines 237-254): `value`
defaults to `label` when MISSING (`none`). -/
def SelectOption.init (label : String) (value : Option String)
    (description : Option String) (emoji : Option String) (default : Bool) :
    SelectOption :=
  { label := label
    value :=
      match value with
      | none => label
      | some v => v
    description := description
    emoji := emoji
    default := default }

/-- Wire payload of a select option (`{label, value, default, emoji?,
description?}`). -/
structure SelectOptionPayload where
  label : String
  value : String
  default : Bool
  emoji : Option String
  description : Option String
deriving DecidableEq, Repr

/-- `SelectOption.to_dict` (`components.py` lines 287-300). -/
def SelectOption.to_dict (o : SelectOption) : SelectOptionPayload :=
  { label := o.label
    value := o.value
    default := o.default
    emoji := o.emoji
    description := if pyTruthy o.description then o.description else none }

/-- `SelectOption.from_dict` (`components.py` lines 272-285): `label` and
`value` are required keys, the rest are read with `.get`. -/
def SelectOption.from_dict (d : SelectOptionPayload) : SelectOption :=
  SelectOption.init d.label (some d.value) d.description d.emoji d.default

/-- State of a `SelectMenu` (`components.py` lines 178-200). -/
structure SelectMenu where
  type : Nat
  custom_id : Option String
  placeholder : Option String
  min_values : Int
  max_values : Int
  disabled : Bool
  options : List SelectOption
deriving DecidableEq, Repr

/-- `SelectMenu.__init__` (`components.py` lines 190-200):
`min_values or 1`, `max_values or self.min_values`, `disabled or False`. -/
def SelectMenu.init (options : List SelectOption) (custom_id : Option (Option String))
    (min_values max_values : Option Int) (placeholder : Option String)
    (disabled : Option Bool) (fresh : String) : SelectMenu :=
  let mi := pyOrInt min_values 1
  { type := 3
    custom_id :=
      match custom_id with
      | none => some fresh
      | some v => v
    placeholder := placeholder
    min_values := mi
    max_values := pyOrInt max_values mi
    disabled :=
      match disabled with
      | some true => true
      | _ => false
    options := options }

/-- Wire payload of a select menu: `type`, `custom_id`, `min_values`,
`max_values`, `options`, `disabled` are always emitted; `placeholder` only
when truthy. -/
structure SelectMenuPayload where
  type : Nat
  custom_id : Option String
  min_values : Int
  max_values : Int
  options : List SelectOptionPayload
  disabled : Bool
  placeholder : Option String
deriving DecidableEq, Repr

/-- `SelectMenu.to_dict` (`components.py` lines 202-215). -/
def SelectMenu.to_dict (m : SelectMenu) : SelectMenuPayload :=
  { type := m.type
    custom_id := m.custom_id
    min_values := m.min_values
    max_values := m.max_values
    options := m.options.map SelectOption.to_dict
    disabled := m.disabled
    placeholder := if pyTruthy m.placeholder then m.placeholder else none }

/-- `SelectMenu.from_dict` (`components.py` lines 216-225).  The source
builds the options from `data.get("optioins", [])`: that misspelled key is
never present in the wire schema or in any `to_dict` output, so the
default `[]` is always taken and the parsed menu has no options. -/
def SelectMenu.from_dict (d : SelectMenuPayload) (fresh : String) : SelectMenu :=
  SelectMenu.init [] (some d.custom_id) (some d.min_values) (some d.max_values)
    d.placeholder (some d.disabled) fresh

/-- The `component` union from `components.py` line 302:
`Union[Button, LinkButton, SelectMenu]` — the children an `ActionRow` holds. -/
inductive MessageComponent where
  | button (b : BaseButton)
  | selectMenu (m : SelectMenu)
deriving DecidableEq, Repr

/-- `custom_id` attribute of a child component. -/
def MessageComponent.custom_id : MessageComponent → Option String
  | .button b => b.custom_id
  | .selectMenu m => m.custom_id

/-- Wire payload of a child component inside a row. -/
inductive MessageComponentPayload where
  | button (d : ButtonPayload)
  | selectMenu (d : SelectMenuPayload)
deriving DecidableEq, Repr

/-- `to_dict` of a child component (dispatches to the class's method). -/
def MessageComponent.to_dict : MessageComponent → MessageComponentPayload
  | .button b => .button b.to_dict
  | .selectMenu m => .selectMenu m.to_dict

/-- State of an `ActionRow` (`components.py` lines 304-310). -/
structure ActionRow where
  components : List MessageComponent
deriving DecidableEq, Repr

/-- Wire payload of an action row (`{type: 1, components: [...]}`). -/
structure ActionRowPayload where
  type : Nat
  components : List MessageComponentPayload
deriving DecidableEq, Repr

/-- `ActionRow.to_dict` (`components.py` lines 326-330). -/
def ActionRow.to_dict (r : ActionRow) : ActionRowPayload :=
  { type := 1, components := r.components.map MessageComponent.to_dict }

/-- `ActionRow._get_index` for a string key (`components.py` lines 312-317):
collects `[i for i, x in enumerate(self.components) if x.custom_id == key]`
and, when that list is non-empty, returns the whole LIST (not a single
index); otherwise raises `KeyError(r)` where `r` is the empty list (its
repr is `[]`). -/
def ActionRow.get_index (r : ActionRow) (key : String) : Except PyErr (List Nat) :=
  let idxs := (r.components.enum.filter (fun p => p.2.custom_id == some key)).map (·.1)
  if idxs.length > 0 then .ok idxs else .error (.keyError "[]")

/-- `ActionRow.__getitem__` for a string key (`components.py` lines 319-320):
evaluates `self.components[self._get_index(key)]`.  Since `_get_index`
returns a list for string keys, the successful branch indexes a Python
list with a list, which raises `TypeError`; the failing branch propagates
the `KeyError`. -/
def ActionRow.getItemStr (r : ActionRow) (key : String) : Except PyErr MessageComponent :=
  match r.get_index key with
  | .error e => .error e
  | .ok _ => .error .typeError

/-- An element of the flat list handed to `ComponentStore.__init__`:
either a loose child component or an explicit `ActionRow`. -/
inductive StoreComponent where
  | comp (c : MessageComponent)
  | row (r : ActionRow)
deriving DecidableEq, Repr

/-- Whether an input element is an explicit `ActionRow`. -/
def StoreComponent.isRow : StoreComponent → Bool
  | .row _ => true
  | _ => false

/-- A value that `ComponentStore.__init__` appends to `self.rows`: either an
`ActionRow` object it built itself, or — via `add_row` (`components.py`
lines 403-407), whose varargs tuple is turned into `list(components)` — a
plain Python list wrapping the explicit `ActionRow` that was passed in. -/
inductive StoreRow where
  | actionRow (r : ActionRow)
  | pyList (rs : List ActionRow)
deriving DecidableEq, Repr

/-- The row-packing loop of `ComponentStore.__init__` (`components.py`
lines 368-383), with `pending` the accumulator list `row`:
* a `SelectMenu` flushes the pending row and is appended in its own
  `ActionRow`;
* an explicit `ActionRow` flushes the pending row and is handed to
  `add_row`, which appends `list((row,))` — a plain list wrapping it;
* every other component is appended to the pending row;
* a non-empty pending row is flushed at the end. -/
def ComponentStore.packGo : List StoreComponent → List MessageComponent → List StoreRow
  | [], pending =>
      if pending.length > 0 then [.actionRow ⟨pending⟩] else []
  | .comp c :: rest, pending =>
      match c with
      | .selectMenu m =>
          (if pending.length > 0 then [.actionRow ⟨pending⟩] else [])
            ++ (.actionRow ⟨[.selectMenu m]⟩ :: ComponentStore.packGo rest [])
      | .button b =>
          ComponentStore.packGo rest (pending ++ [.button b])
  | .row r :: rest, pending =>
      (if pending.length > 0 then [.actionRow ⟨pending⟩] else [])
        ++ (.pyList [r] :: ComponentStore.packGo rest [])

/-- `ComponentStore.__init__` on a flat list of components (`components.py`
lines 358-383).  The other constructor branches (a raw list-of-lists
argument, or a bare `ActionRow` argument) are not reachable for inputs of
this type. -/
def ComponentStore.pack (components : List StoreComponent) : List StoreRow :=
  ComponentStore.packGo components []

/-- `to_dict` of one stored row: an `ActionRow` serializes normally; a plain
Python list (appended by `add_row`) has no `to_dict` attribute, so
serialization raises `AttributeError`. -/
def StoreRow.to_dict : StoreRow → Except PyErr ActionRowPayload
  | .actionRow r => .ok r.to_dict
  | .pyList _ => .error .attributeError

/-- `ComponentStore.to_dict` (`components.py` lines 394-395):
`[r.to_dict() for r in self.rows]`. -/
def ComponentStore.to_dict (rows : List StoreRow) : Except PyErr (List ActionRowPayload) :=
  rows.mapM StoreRow.to_dict

/-- The child components of a packed row (`[]` for the plain-list case,
which holds `ActionRow` objects rather than child components). -/
def StoreRow.flat : StoreRow → List MessageComponent
  | .actionRow r => r.components
  | .pyList _ => []

/-- The loose child components of the input list, in order. -/
def StoreComponent.flatInput (l : List StoreComponent) : List MessageComponent :=
  l.filterMap (fun x =>
    match x with
    | .comp c => some c
    | .row _ => none)

/-- `str(ApplicationCommandType.x)`, used as the type key of the nested
command cache.  `enums.py` is not among the shown sources; only the
injectivity of the key matters, so the enum member name is used. -/
def typeKey (t : Nat) : String :=
  if t = 1 then "chat_input" else if t = 2 then "user" else if t = 3 then "message"
  else toString t

/-- A `SlashOption` (`slash.py` lines 102-150), restricted to plain
parameter options: `choices`, `channel_types`, `min_value`, `max_value`,
`autocomplete` and nested `options` are not modelled (i.e. are `None`),
which is the configuration the claims exercise.  `description` holds the
value after `description or '​'`. -/
structure SlashOption where
  type : Nat
  name : String
  description : String
  required : Bool
deriving DecidableEq, Repr

/-- Wire payload of a slash option; `required` is omitted for subcommand
(1) and subcommand-group (2) option types. -/
structure SlashOptionPayload where
  type : Nat
  name : String
  description : String
  required : Option Bool
deriving DecidableEq, Repr

/-- `SlashOption.to_dict` (`slash.py` lines 166-186) under the restriction
above (all unmodelled fields are `None`, so their conditional keys are
omitted). -/
def SlashOption.to_dict (o : SlashOption) : SlashOptionPayload :=
  { type := o.type
    name := o.name
    description := o.description
    required := if o.type = 1 ∨ o.type = 2 then none else some o.required }

/-- `SlashPermission` (`slash.py` lines 1012-1029): `allowed`/`forbidden`
as (target id, target kind) association lists. -/
structure SlashPermission where
  allowed : List (Nat × Nat)
  forbidden : List (Nat × Nat)
deriving DecidableEq, Repr

/-- One entry of a permissions payload (`{id, type, permission}`). -/
structure PermissionPayload where
  id : Nat
  type : Nat
  permission : Bool
deriving DecidableEq, Repr

/-- `SlashPermission.to_dict` (`slash.py` lines 1031-1036). -/
def SlashPermission.to_dict (p : SlashPermission) : List PermissionPayload :=
  p.allowed.map (fun x => ⟨x.1, x.2, true⟩) ++ p.forbidden.map (fun x => ⟨x.1, x.2, false⟩)

/-- The data of a `SubSlashCommand` as stored inside a base command's
`__subcommands__` mapping (subset of its fields used by serialization and
interaction routing). -/
structure SubCommandData where
  name : String
  description : String
  options : List SlashOption
  default_permission : Bool
deriving DecidableEq, Repr

/-- Payload of a single subcommand as serialized by `SlashCommand.to_dict`
(`slash.py` line 339): the source calls the SubSlashCommand's inherited
full-command `to_dict`, producing a command-shaped dict (with
`default_permission`) in place of an option dict. -/
structure SubCommandPayload where
  type : Nat
  name : String
  description : String
  default_permission : Bool
  options : Option (List SlashOptionPayload)
deriving DecidableEq, Repr

/-- `SubSlashCommand.to_dict` (inherited `ApplicationCommand.to_dict`,
`slash.py` lines 250-259, for the chat-input subcommand). -/
def SubCommandData.to_dict (s : SubCommandData) : SubCommandPayload :=
  { type := 1
    name := s.name
    description := s.description
    default_permission := s.default_permission
    options := if s.options.isEmpty then none else some (s.options.map SlashOption.to_dict) }

/-- `SubSlashCommand.to_option().to_dict()` (`slash.py` lines 405-406):
`SlashOption(OptionType.subcommand, name, description, False)`. -/
def SubCommandData.to_option_dict (s : SubCommandData) : SlashOptionPayload :=
  SlashOption.to_dict ⟨1, s.name, s.description, false⟩

/-- Payload of a subcommand group as serialized by `SlashCommand.to_dict`
(`slash.py` lines 342-345): `SlashOption(subcommand_group, name,
options=[sub.to_option() ...]).to_dict()` with `description` defaulting to
the zero-width space. -/
structure GroupPayload where
  type : Nat
  name : String
  description : String
  options : List SlashOptionPayload
deriving DecidableEq, Repr

/-- An entry of a serialized command's `options` array. -/
inductive OptionEntryPayload where
  | opt (o : SlashOptionPayload)
  | sub (p : SubCommandPayload)
  | group (g : GroupPayload)
deriving DecidableEq, Repr

/-- A value of a base command's `__subcommands__` mapping: a subcommand, or
a group (an inner name-keyed dict of subcommands). -/
inductive SubEntry where
  | single (c : SubCommandData)
  | group (m : List (String × SubCommandData))
deriving DecidableEq, Repr

/-- State of an `ApplicationCommand` (`slash.py` lines 189-244) restricted
to the fields the embedded operations read: `type` (wire value), `name`,
`description`, `options`, `__subcommands__`, `guild_ids` (`[]` models
`None`/empty, i.e. global scope), `default_permission`, `id`,
`permissions`.  Values are immutable snapshots: Python's aliasing of one
command object across several guild buckets is not represented. -/
structure ApplicationCommand where
  type : Nat
  name : String
  description : String
  options : List SlashOption
  subcommands : List (String × SubEntry)
  guild_ids : List Nat
  default_permission : Bool
  id : Option Nat
  permissions : SlashPermission
deriving DecidableEq, Repr

/-- `ApplicationCommand.is_global` (`slash.py` lines 262-263). -/
def ApplicationCommand.is_global (c : ApplicationCommand) : Bool :=
  c.guild_ids.isEmpty

/-- Payload of a serialized command; context commands (types 2 and 3) omit
`description` and `options`; `options` is present only when non-empty. -/
structure CommandPayload where
  type : Nat
  name : String
  description : Option String
  default_permission : Bool
  options : Option (List OptionEntryPayload)
deriving DecidableEq, Repr

/-- `to_dict` of a command: `ContextCommand.to_dict` (`slash.py` lines
436-441) for types 2/3, otherwise `ApplicationCommand.to_dict` (lines
250-259) with `SlashCommand.to_dict` (lines 333-350) replacing the options
by the serialized subcommand tree when `__subcommands__` is non-empty. -/
def ApplicationCommand.to_dict (c : ApplicationCommand) : CommandPayload :=
  if c.type = 2 ∨ c.type = 3 then
    { type := c.type, name := c.name, description := none,
      default_permission := c.default_permission, options := none }
  else
    { type := c.type
      name := c.name
      description := some c.description
      default_permission := c.default_permission
      options :=
        if c.subcommands.isEmpty then
          if c.options.isEmpty then none
          else some (c.options.map (fun o => OptionEntryPayload.opt o.to_dict))
        else
          some (c.subcommands.map (fun e =>
            match e.2 with
            | .single s => OptionEntryPayload.sub s.to_dict
            | .group m => OptionEntryPayload.group ⟨2, e.1, zwsp, m.map (fun x => x.2.to_option_dict)⟩)) }

/-- A command as it exists on the remote platform (the fields the embedded
code reads from the platform's JSON). -/
structure RemoteCommand where
  id : Nat
  type : Nat
  name : String
  options : Option (List OptionEntryPayload)
deriving DecidableEq, Repr

/-- `APITools.get_global_command` / `get_guild_command` (`slash.py` lines
990-1010): first remote command matching `(name, type)`. -/
def findRemote (rs : List RemoteCommand) (name : String) (t : Nat) : Option RemoteCommand :=
  rs.find? (fun x => x.name == name && x.type == t)

/-- `SlashOption.__eq__` against a payload dict (`slash.py` lines 152-164)
under the modelling restriction (choices, min/max, channel_types are
`None`/empty on both sides). -/
def SlashOption.eqDict (o : SlashOptionPayload) (s : SlashOption) : Bool :=
  o.type == s.type && o.name == s.name && o.description == s.description
    && o.required.getD false == s.required

/-- `SlashOption.__eq__` applied to one entry of a remote command's
`options` array.  Subcommand and group entries are dicts without a
`required` key, so `o.get('required', False)` is `False` for them. -/
def optionEntryEqSlash (e : OptionEntryPayload) (s : SlashOption) : Bool :=
  match e with
  | .opt o => SlashOption.eqDict o s
  | .sub p => p.type == s.type && p.name == s.name && p.description == s.description
      && false == s.required
  | .group g => g.type == s.type && g.name == s.name && g.description == s.description
      && false == s.required

/-- `SlashCommand.__eq__` against a remote dict (`slash.py` lines 321-328):
checks type and name, then reads `object['options']` — raising `KeyError`
when the remote dict has no `options` key — and compares options
pairwise. -/
def slashCommandEqDict (api : RemoteCommand) (base : ApplicationCommand) :
    Except PyErr Bool :=
  if api.type == base.type && api.name == base.name then
    match api.options with
    | none => .error (.keyError "options")
    | some opts =>
        .ok (base.options.length == opts.length
          && (opts.zip base.options).all (fun p => optionEntryEqSlash p.1 p.2))
  else .ok false

/-- Python `api_command != base` inside `sync`: `SlashCommand` (chat-input
commands, type 1) defines `__eq__`; context commands do not, so a dict is
never equal to them and the comparison is always `True`. -/
def commandNeqDict (api : RemoteCommand) (base : ApplicationCommand) :
    Except PyErr Bool :=
  if base.type = 1 then
    match slashCommandEqDict api base with
    | .error e => .error e
    | .ok b => .ok (!b)
  else .ok true

/-- First value bound to a string key in a Python-dict-as-association-list. -/
def assocFind {α : Type} (l : List (String × α)) (k : String) : Option α :=
  (l.find? (fun p => p.1 == k)).map (·.2)

/-- Python dict assignment `d[k] = v`: update in place when the key exists
(preserving insertion order), append otherwise. -/
def assocSet {α : Type} (l : List (String × α)) (k : String) (v : α) :
    List (String × α) :=
  if (l.find? (fun p => p.1 == k)).isSome then
    l.map (fun p => if p.1 == k then (k, v) else p)
  else l ++ [(k, v)]

/-- Python `del d[k]`. -/
def assocErase {α : Type} (l : List (String × α)) (k : String) :
    List (String × α) :=
  l.filter (fun p => p.1 != k)

/-- Innermost level of the command cache: name → command. -/
abbrev NameMap := List (String × ApplicationCommand)

/-- Middle level: type key → name map. -/
abbrev TypeMap := List (String × NameMap)

/-- The `CommandStore._cache`: `"globals"` or a guild id string → type map. -/
abbrev StoreCache := List (String × TypeMap)

/-- `CommandStore.clear` (`slash.py` lines 691-700): the `"globals"` scope
with its three empty type buckets. -/
def CommandStore.emptyCache : StoreCache :=
  [("globals", [(typeKey 1, []), (typeKey 2, []), (typeKey 3, [])])]

/-- Constructor arguments of a `SubSlashCommand` (`slash.py` lines
371-403).  NOTE: `__init__` stores `base` and `group_name` but never
assigns the `base_names` slot, so reading the `base_names` ATTRIBUTE on a
constructed object raises `AttributeError`; this structure records the
constructor argument so the embedding can model both the working accessors
(`base_name`, via the stored `base`) and that failure. -/
structure SubSlashData where
  base_names : List String
  name : String
  description : String
  options : List SlashOption
  guild_ids : List Nat
  default_permission : Bool
  permissions : SlashPermission
deriving DecidableEq, Repr

/-- `self.group_name = base_names[1] if len(base_names) > 1 else None`. -/
def SubSlashData.group_name (s : SubSlashData) : Option String :=
  s.base_names.get? 1

/-- `SubSlashCommand.base_name` property (`slash.py` lines 408-410):
`self.base.name`, where `base` was set to `_TempBase(base_names[0])`.
Any successfully constructed object has a non-empty `base_names` (an empty
one would already have raised at construction), hence the plain default. -/
def SubSlashData.base_name (s : SubSlashData) : String :=
  s.base_names.headD ""

/-- Its subcommand payload data as stored in the base's `__subcommands__`. -/
def SubSlashData.data (s : SubSlashData) : SubCommandData :=
  ⟨s.name, s.description, s.options, s.default_permission⟩

/-- An argument to `CommandStore._add`/`append`/`remove`: a base-level
command (SlashCommand / UserCommand / MessageCommand — `is_subcommand()` is
false) or a `SubSlashCommand`. -/
inductive CommandInput where
  | cmd (c : ApplicationCommand)
  | sub (s : SubSlashData)
deriving DecidableEq, Repr

/-- The base `SlashCommand` synthesized by `_add` when a subcommand's base
is not yet cached (`slash.py` lines 711-713 and 729-731):
`SlashCommand(callback=None, name=base_name, ...)`, whose description
defaults to the zero-width space and whose `permissions` is a fresh empty
`SlashPermission`. -/
def SubSlashData.synthBase (s : SubSlashData) : ApplicationCommand :=
  { type := 1, name := s.base_name, description := zwsp, options := [],
    subcommands := [], guild_ids := [], default_permission := s.default_permission,
    id := none, permissions := ⟨[], []⟩ }

/-- `SlashCommand.add_subcommand` (`slash.py` lines 352-359).  When an
entry with the group's name already exists but is a single subcommand
(not an inner dict), the source subscripts that `SubSlashCommand` object,
which is not subscriptable: `TypeError`. -/
def ApplicationCommand.add_subcommand (base : ApplicationCommand) (s : SubSlashData) :
    Except PyErr ApplicationCommand :=
  match s.group_name with
  | some g =>
      match assocFind base.subcommands g with
      | none =>
          let subs := assocSet base.subcommands g (.group (assocSet [] s.name s.data))
          .ok { base with subcommands := subs }
      | some (.group m) =>
          let subs := assocSet base.subcommands g (.group (assocSet m s.name s.data))
          .ok { base with subcommands := subs }
      | some (.single _) => .error .typeError
  | none =>
      .ok { base with subcommands := assocSet base.subcommands s.name (.single s.data) }

/-- The guild-scope insertion loop of `CommandStore._add` for a non-subcommand
command (`slash.py` lines 718-724 and 734-735): for each guild id, create the
guild scope and type bucket on demand, then set `[command.name] = command`. -/
def CommandStore.addGuildPlain (c : ApplicationCommand) :
    List Nat → StoreCache → StoreCache
  | [], cache => cache
  | g :: rest, cache =>
      let gk := toString g
      let tk := typeKey c.type
      let cache1 := if (assocFind cache gk).isSome then cache else assocSet cache gk []
      let tm := (assocFind cache1 gk).getD []
      let tm1 := if (assocFind tm tk).isSome then tm else assocSet tm tk []
      let bucket := (assocFind tm1 tk).getD []
      CommandStore.addGuildPlain c rest
        (assocSet cache1 gk (assocSet tm1 tk (assocSet bucket c.name c)))

/-- The guild-scope insertion loop of `CommandStore._add` for a subcommand
(`slash.py` lines 725-733): fetch or synthesize the base `SlashCommand` in
the chat-input bucket, attach the subcommand to it, and store it back under
the base name. -/
def CommandStore.addGuildSub (s : SubSlashData) :
    List Nat → StoreCache → Except PyErr StoreCache
  | [], cache => .ok cache
  | g :: rest, cache =>
      let gk := toString g
      let tk := typeKey 1
      let cache1 := if (assocFind cache gk).isSome then cache else assocSet cache gk []
      let tm := (assocFind cache1 gk).getD []
      let tm1 := if (assocFind tm tk).isSome then tm else assocSet tm tk []
      let bucket := (assocFind tm1 tk).getD []
      let base :=
        match assocFind bucket s.base_name with
        | some b => b
        | none => s.synthBase
      match base.add_subcommand s with
      | .error e => .error e
      | .ok base1 =>
          CommandStore.addGuildSub s rest
            (assocSet cache1 gk (assocSet tm1 tk (assocSet bucket base1.name base1)))

/-- `CommandStore._add` (`slash.py` lines 703-736), the insertion behind
`add_command`/`append`.  For a GLOBAL subcommand the source reads
`command.base_names[0]` (line 709) — but `SubSlashCommand.__init__` never
assigns that slot, so the attribute access raises `AttributeError`.  For a
global plain command the target bucket is read with plain indexing
(`self["globals"][type_key]`), raising `KeyError` if absent. -/
def CommandStore.addOne (cache : StoreCache) (inp : CommandInput) :
    Except PyErr StoreCache :=
  match inp with
  | .cmd c =>
      if c.is_global then
        let tk := typeKey c.type
        match assocFind cache "globals" with
        | none => .error (.keyError "globals")
        | some g =>
            match assocFind g tk with
            | none => .error (.keyError tk)
            | some bucket =>
                .ok (assocSet cache "globals" (assocSet g tk (assocSet bucket c.name c)))
      else .ok (CommandStore.addGuildPlain c c.guild_ids cache)
  | .sub s =>
      if s.guild_ids.isEmpty then .error .attributeError
      else CommandStore.addGuildSub s s.guild_ids cache

/-- `CommandStore.remove` (`slash.py` lines 750-775).  Line 757 computes
the cache name: for a subcommand it reads `base.base_names[0]`, an
attribute `__init__` never assigned — `AttributeError`.  For a global
command the source looks up the key `"global"`, but the cache's actual key
is `"globals"` (`clear`, `_add`), so `self[k]` raises `KeyError("global")`.
Every branch of the guild loop returns, so only the first guild id is
processed. -/
def CommandStore.remove (cache : StoreCache) (inp : CommandInput) :
    Except PyErr StoreCache :=
  match inp with
  | .sub _ => .error .attributeError
  | .cmd c =>
      let tk := typeKey c.type
      let keys := if c.is_global then ["global"] else c.guild_ids.map toString
      match keys with
      | [] => .ok cache
      | k :: _ =>
          match assocFind cache k with
          | none => .error (.keyError k)
          | some tm =>
              match assocFind tm tk with
              | none => .ok cache
              | some bucket =>
                  match assocFind bucket c.name with
                  | none => .ok cache
                  | some _ =>
                      .ok (assocSet cache k (assocSet tm tk (assocErase bucket c.name)))

/-- A second-level node of an interaction payload's `options` array (the
fields `get_interaction_command` reads). -/
structure OptionLeaf where
  name : String
deriving DecidableEq, Repr

/-- A first-level node of an interaction payload's `options` array. -/
structure InteractionOption where
  type : Nat
  name : String
  options : Option (List OptionLeaf)
deriving DecidableEq, Repr

/-- The `data` object of an interaction payload (the fields
`get_interaction_command` reads: the command `id` and the options tree). -/
structure InteractionData where
  id : Nat
  options : Option (List InteractionOption)
deriving DecidableEq, Repr

/-- What `get_interaction_command` can return: the base command, a single
subcommand, or (for a subcommand first-level node naming a group) the inner
group dict itself. -/
inductive ResolvedCommand where
  | base (c : ApplicationCommand)
  | subSingle (s : SubCommandData)
  | subGroup (m : List (String × SubCommandData))
deriving DecidableEq, Repr

/-- `CommandStore.get_interaction_command` (`slash.py` lines 913-933).
`_raw_cache.get` missing → early `None`.  With the id present:
* `options` key absent → the base command;
* `options` present but empty → `options[0]` raises `IndexError`;
* first option not a subcommand/group type → the base command;
* subcommand navigation: `command[name]` is `SlashCommand.__getitem__`
  (only chat-input commands are subscriptable — `TypeError` otherwise);
  a missing key is a `KeyError` caught by the source (→ `None`); for a
  group node, the second-level name indexes the inner dict (missing
  `options` key → caught `KeyError` → `None`; empty list → uncaught
  `IndexError`; a single subcommand is not subscriptable → `TypeError`). -/
def CommandStore.get_interaction_command
    (raw : List (Nat × ApplicationCommand)) (d : InteractionData) :
    Except PyErr (Option ResolvedCommand) :=
  match (raw.find? (fun p => p.1 == d.id)).map (·.2) with
  | none => .ok none
  | some command =>
      match d.options with
      | none => .ok (some (.base command))
      | some [] => .error .indexError
      | some (o :: _) =>
          if o.type = 1 ∨ o.type = 2 then
            if command.type ≠ 1 then .error .typeError
            else
              match assocFind command.subcommands o.name with
              | none => .ok none
              | some entry =>
                  if o.type = 1 then
                    match entry with
                    | .single s => .ok (some (.subSingle s))
                    | .group m => .ok (some (.subGroup m))
                  else
                    match o.options with
                    | none => .ok none
                    | some [] => .error .indexError
                    | some (l :: _) =>
                        match entry with
                        | .single _ => .error .typeError
                        | .group m =>
                            .ok ((assocFind m l.name).map (fun s => .subSingle s))
          else .ok (some (.base command))

/-- A mutating HTTP request issued by `CommandStore.sync` (the spec's
collaborator contract, `state.slash_http`). -/
inductive HttpCall where
  | createGlobal (payload : CommandPayload)
  | editGlobal (id : Nat) (payload : CommandPayload)
  | createGuild (payload : CommandPayload) (guild : String) (perms : List PermissionPayload)
  | editGuild (id : Nat) (guild : String) (payload : CommandPayload) (perms : List PermissionPayload)
  | updatePermissions (guild : String) (id : Nat) (perms : List PermissionPayload)
  | deleteGlobal (id : Nat)
  | deleteGuild (id : Nat) (guild : String)
deriving DecidableEq, Repr

/-- Whether a call is an edit request. -/
def HttpCall.isEdit : HttpCall → Bool
  | .editGlobal _ _ => true
  | .editGuild _ _ _ _ => true
  | _ => false

/-- Whether a call is a create request. -/
def HttpCall.isCreate : HttpCall → Bool
  | .createGlobal _ => true
  | .createGuild _ _ _ => true
  | _ => false

/-- Running state of a `sync` pass: the mutating calls issued so far, the
`_raw_cache` being rebuilt, and the id the next create request returns
(platform-issued ids are modelled as consecutive from a start value). -/
structure SyncState where
  calls : List HttpCall
  raw : List (Nat × ApplicationCommand)
  ctr : Nat
deriving DecidableEq, Repr

/-- One iteration of the global loop of `CommandStore.sync` (`slash.py`
lines 786-799).  The remote is modelled as a fixed snapshot handed to the
lookup; line 791's `print(api_command == base)` evaluates the same
(possibly `KeyError`-raising) comparison that the `!=` branch uses, so the
comparison is evaluated once here.  An edit's response carries the same id
the remote command already had. -/
def syncOneGlobal (remoteG : List RemoteCommand) (st : SyncState)
    (base : ApplicationCommand) : Except PyErr (SyncState × ApplicationCommand) :=
  match findRemote remoteG base.name base.type with
  | none =>
      let upd := { base with id := some st.ctr }
      .ok ({ calls := st.calls ++ [.createGlobal base.to_dict], raw := st.raw ++ [(st.ctr, upd)], ctr := st.ctr + 1 }, upd)
  | some a =>
      match commandNeqDict a base with
      | .error e => .error e
      | .ok ne =>
          let upd := { base with id := some a.id }
          if ne then
            .ok ({ st with calls := st.calls ++ [.editGlobal a.id base.to_dict], raw := st.raw ++ [(a.id, upd)] }, upd)
          else
            .ok ({ st with raw := st.raw ++ [(a.id, upd)] }, upd)

/-- The global loop over one type bucket's commands, returning the updated
entries (ids adopted in place). -/
def syncGlobalsEntries (remoteG : List RemoteCommand) :
    NameMap → SyncState → Except PyErr (SyncState × NameMap)
  | [], st => .ok (st, [])
  | (n, c) :: rest, st =>
      match syncOneGlobal remoteG st c with
      | .error e => .error e
      | .ok (st1, c1) =>
          match syncGlobalsEntries remoteG rest st1 with
          | .error e => .error e
          | .ok (st2, rest1) => .ok (st2, (n, c1) :: rest1)

/-- The global loop over the type buckets of `self["globals"]`. -/
def syncGlobalsBuckets (remoteG : List RemoteCommand) :
    TypeMap → SyncState → Except PyErr (SyncState × TypeMap)
  | [], st => .ok (st, [])
  | (tk, nm) :: rest, st =>
      match syncGlobalsEntries remoteG nm st with
      | .error e => .error e
      | .ok (st1, nm1) =>
          match syncGlobalsBuckets remoteG rest st1 with
          | .error e => .error e
          | .ok (st2, rest1) => .ok (st2, (tk, nm1) :: rest1)

/-- One iteration of the guild loop of `CommandStore.sync` (`slash.py`
lines 805-828).  A guild command is created when no remote guild command
matches OR a same-named remote global command exists; otherwise it is
edited when structurally different; otherwise the permissions comparison
`api_permissions != base.permissions` compares a list against a
`SlashPermission` object that defines no `__eq__`, so it is always true
and a permissions update is pushed.  `guild_object._add_channel` (line
828) is a bare attribute access with no effect. -/
def syncOneGuild (remoteG : List RemoteCommand) (rg : List RemoteCommand)
    (guild : String) (st : SyncState) (base : ApplicationCommand) :
    Except PyErr (SyncState × ApplicationCommand) :=
  match findRemote rg base.name base.type with
  | none =>
      let upd := { base with id := some st.ctr }
      .ok ({ calls := st.calls ++ [.createGuild base.to_dict guild base.permissions.to_dict], raw := st.raw ++ [(st.ctr, upd)], ctr := st.ctr + 1 }, upd)
  | some a =>
      if (findRemote remoteG base.name base.type).isSome then
        let upd := { base with id := some st.ctr }
        .ok ({ calls := st.calls ++ [.createGuild base.to_dict guild base.permissions.to_dict], raw := st.raw ++ [(st.ctr, upd)], ctr := st.ctr + 1 }, upd)
      else
        match commandNeqDict a base with
        | .error e => .error e
        | .ok ne =>
            let upd := { base with id := some a.id }
            if ne then
              .ok ({ st with calls := st.calls ++ [.editGuild a.id guild base.to_dict base.permissions.to_dict], raw := st.raw ++ [(a.id, upd)] }, upd)
            else
              .ok ({ st with calls := st.calls ++ [.updatePermissions guild a.id base.permissions.to_dict], raw := st.raw ++ [(a.id, upd)] }, upd)

/-- The guild loop over one type bucket's commands. -/
def syncGuildEntries (remoteG rg : List RemoteCommand) (guild : String) :
    NameMap → SyncState → Except PyErr (SyncState × NameMap)
  | [], st => .ok (st, [])
  | (n, c) :: rest, st =>
      match syncOneGuild remoteG rg guild st c with
      | .error e => .error e
      | .ok (st1, c1) =>
          match syncGuildEntries remoteG rg guild rest st1 with
          | .error e => .error e
          | .ok (st2, rest1) => .ok (st2, (n, c1) :: rest1)

/-- The guild loop over the type buckets of `self[guild]`. -/
def syncGuildBuckets (remoteG rg : List RemoteCommand) (guild : String) :
    TypeMap → SyncState → Except PyErr (SyncState × TypeMap)
  | [], st => .ok (st, [])
  | (tk, nm) :: rest, st =>
      match syncGuildEntries remoteG rg guild nm st with
      | .error e => .error e
      | .ok (st1, nm1) =>
          match syncGuildBuckets remoteG rg guild rest st1 with
          | .error e => .error e
          | .ok (st2, rest1) => .ok (st2, (tk, nm1) :: rest1)

/-- The guild keys iterated by `for guild in self["!globals"]`: every cache
key except `""` and `"globals"` (the `"!"`-filter of `__getitem__`,
`slash.py` lines 527-530). -/
def gkeysOf (cache : StoreCache) : List String :=
  (cache.map (·.1)).filter (fun k => k != "" && k != "globals")

/-- The guild loop over all guild scopes, returning the updated per-guild
type maps. -/
def syncGuildsList (remoteG : List RemoteCommand)
    (remoteGuilds : List (String × List RemoteCommand)) (cache : StoreCache) :
    List String → SyncState → Except PyErr (SyncState × List (String × TypeMap))
  | [], st => .ok (st, [])
  | g :: rest, st =>
      let tm := (assocFind cache g).getD []
      match syncGuildBuckets remoteG ((assocFind remoteGuilds g).getD []) g tm st with
      | .error e => .error e
      | .ok (st1, tm1) =>
          match syncGuildsList remoteG remoteGuilds cache rest st1 with
          | .error e => .error e
          | .ok (st2, rest1) => .ok (st2, (g, tm1) :: rest1)

/-- The global half of the `delete_unused` pass (`slash.py` lines
830-840): delete every remote global command whose type bucket or name is
absent from the local globals. -/
def syncDeleteGlobals (gmap : TypeMap) : List RemoteCommand → List HttpCall
  | [] => []
  | gc :: rest =>
      match assocFind gmap (typeKey gc.type) with
      | none => .deleteGlobal gc.id :: syncDeleteGlobals gmap rest
      | some bucket =>
          if (assocFind bucket gc.name).isSome then syncDeleteGlobals gmap rest
          else .deleteGlobal gc.id :: syncDeleteGlobals gmap rest

/-- The per-guild half of the `delete_unused` pass (`slash.py` lines
841-855) for one guild of `self._state.guilds`. -/
def syncDeleteGuild (cache : StoreCache) (g : String) : List RemoteCommand → List HttpCall
  | [] => []
  | gc :: rest =>
      match assocFind cache g with
      | none => .deleteGuild gc.id g :: syncDeleteGuild cache g rest
      | some tm =>
          match assocFind tm (typeKey gc.type) with
          | none => .deleteGuild gc.id g :: syncDeleteGuild cache g rest
          | some bucket =>
              if (assocFind bucket gc.name).isSome then syncDeleteGuild cache g rest
              else .deleteGuild gc.id g :: syncDeleteGuild cache g rest

/-- The full `delete_unused` pass; `stateGuilds` is
`[str(x.id) for x in self._state.guilds]`. -/
def syncDeleteUnused (cache : StoreCache) (gmap : TypeMap)
    (remoteG : List RemoteCommand) (remoteGuilds : List (String × List RemoteCommand))
    (stateGuilds : List String) : List HttpCall :=
  syncDeleteGlobals gmap remoteG
    ++ stateGuilds.flatMap (fun g => syncDeleteGuild cache g ((assocFind remoteGuilds g).getD []))

/-- Result of a `sync` pass: the mutating calls in order, the rebuilt
`_raw_cache`, and the cache with ids adopted on the local commands. -/
structure SyncResult where
  calls : List HttpCall
  raw : List (Nat × ApplicationCommand)
  cache : StoreCache
deriving DecidableEq, Repr

/-- The cache after `sync` wrote the adopted ids back: same keys, with the
globals map and each guild map replaced by its updated version. -/
def rebuildCache (cache : StoreCache) (gmap : TypeMap)
    (guilds : List (String × TypeMap)) : StoreCache :=
  cache.map (fun p =>
    if p.1 == "globals" then (p.1, gmap)
    else
      match assocFind guilds p.1 with
      | some tm => (p.1, tm)
      | none => p)

/-- `CommandStore.sync` (`slash.py` lines 776-858).  The HTTP collaborator
is modelled as a fixed remote snapshot: reads return the snapshot, a
create returns a payload carrying the next fresh id, an edit echoes the
existing id.  (In the configurations the claims quantify over — caches
built by `_add`, whose per-scope `(name, type)` pairs are distinct — a
remote that also recorded the commands created earlier in the same pass
would give every lookup the same result, so the snapshot model is
behaviour-preserving there.)  `delete_unused` adds the deletion calls of
lines 830-855; the closing `dispatch`/`on_sync` notifications perform no
cache or remote mutation and are not modelled. -/
def CommandStore.sync (cache : StoreCache) (remoteG : List RemoteCommand)
    (remoteGuilds : List (String × List RemoteCommand)) (stateGuilds : List String)
    (idStart : Nat) (delete_unused : Bool) : Except PyErr SyncResult :=
  match assocFind cache "globals" with
  | none => .error (.keyError "globals")
  | some gmap =>
      match syncGlobalsBuckets remoteG gmap ⟨[], [], idStart⟩ with
      | .error e => .error e
      | .ok (st1, gmap1) =>
          match syncGuildsList remoteG remoteGuilds cache (gkeysOf cache) st1 with
          | .error e => .error e
          | .ok (st2, guilds1) =>
              let cache1 := rebuildCache cache gmap1 guilds1
              let dels := if delete_unused then syncDeleteUnused cache1 gmap1 remoteG remoteGuilds stateGuilds else []
              .ok ⟨st2.calls ++ dels, st2.raw, cache1⟩

/-- All commands of a type map, in iteration order (claim-side helper). -/
def bucketCmds (tm : TypeMap) : List ApplicationCommand :=
  tm.flatMap (fun b => b.2.map (·.2))

/-- All (guild, command) pairs of the guild scopes, in iteration order
(claim-side helper). -/
def guildCmdsOf (cache : StoreCache) (gkeys : List String) :
    List (String × ApplicationCommand) :=
  gkeys.flatMap (fun g => (bucketCmds ((assocFind cache g).getD [])).map (fun c => (g, c)))

/-- Claim-side description of a fresh sync's `_raw_cache`: consecutive ids
from `k` paired with the commands carrying those ids. -/
def idZip (k : Nat) : List ApplicationCommand → List (Nat × ApplicationCommand)
  | [] => []
  | c :: cs => (k, { c with id := some k }) :: idZip (k + 1) cs

/-- Claim-side description of a name map after a fresh sync assigned
consecutive ids from `k`. -/
def updEntries (k : Nat) : NameMap → NameMap
  | [] => []
  | (n, c) :: cs => (n, { c with id := some k }) :: updEntries (k + 1) cs

/-- Claim-side description of a type map after a fresh sync assigned
consecutive ids from `k`. -/
def updBuckets (k : Nat) : TypeMap → TypeMap
  | [] => []
  | (tk, nm) :: rest => (tk, updEntries k nm) :: updBuckets (k + nm.length) rest

/-- Claim-side description of the guild scopes after a fresh sync assigned
consecutive ids from `k`. -/
def updGuilds (cache : StoreCache) (k : Nat) : List String → List (String × TypeMap)
  | [] => []
  | g :: rest =>
      let tm := (assocFind cache g).getD []
      (g, updBuckets k tm) :: updGuilds cache (k + (bucketCmds tm).length) rest

/-- A `Button` with custom_id `"a"` (sample object for concrete evaluations). -/
def btnA : BaseButton :=
  Button.init (some (some "lbl")) ButtonStyle.gray (some (some "a")) none (some false) "f0"

/-- A second sample `Button`, custom_id `"b"`. -/
def btnB : BaseButton :=
  Button.init (some (some "lbl2")) ButtonStyle.gray (some (some "b")) none (some false) "f3"

/-- Sample `SelectOption` with only a label. -/
def sampleOption : SelectOption := SelectOption.init "A" none none none false

/-- Sample `SelectMenu` holding one option, custom_id `"menu1"`. -/
def sampleMenu : SelectMenu :=
  SelectMenu.init [sampleOption] (some (some "menu1")) none none none (some false) "f1"

/-- Sample `SelectMenu` with no options, custom_id `"m1"`. -/
def menuSample : SelectMenu :=
  SelectMenu.init [] (some (some "m1")) none none none (some false) "fm"

/-- Sample `LinkButton` with a url and `disabled=True`. -/
def sampleLink : BaseButton :=
  LinkButton.init (some "https://example.com") (some (some "go")) none (some true) "f2"

/-- A global chat-input command `"ping"` (no options, no subcommands). -/
def pingGlobal : ApplicationCommand := ⟨1, "ping", "pong", [], [], [], true, none, ⟨[], []⟩⟩

/-- A guild-scoped user command `"hi"` for guild 5. -/
def hiGuild : ApplicationCommand := ⟨2, "hi", "d2", [], [], [5], true, none, ⟨[], []⟩⟩

/-- The globals map of `witnessCache`. -/
def witnessGlobals : TypeMap :=
  [(typeKey 1, [("ping", pingGlobal)]), (typeKey 2, []), (typeKey 3, [])]

/-- A store cache with one global command and one guild command, as built
by `clear` + `_add`. -/
def witnessCache : StoreCache :=
  [("globals", witnessGlobals), ("5", [(typeKey 2, [("hi", hiGuild)])])]

/-- C9: a `SelectOption` constructed with a label and no explicit value has
`value = label`; in particular `SelectOption.init "A" none ...` (i.e.
`SelectOption(label="A")`) has value `"A"`. -/
theorem selectoption_value_defaults_to_label (label : String)
    (description emoji : Option String) (dflt : Bool) :
    (SelectOption.init label none description emoji dflt).value = label := rfl

/-- C10: `SelectMenu.__init__` coerces falsy `min_values` (`None` or `0`)
to `1` and falsy `max_values` to the coerced `min_values`; with both
omitted the menu has `min_values = 1` and `max_values = 1`, and no
construction yields `min_values = 0`. -/
theorem selectmenu_min_max_defaults (options : List SelectOption)
    (cid : Option (Option String)) (minA maxA : Option Int) (ph : Option String)
    (dis : Option Bool) (fresh : String) :
    (SelectMenu.init options cid none none ph dis fresh).min_values = 1
  ∧ (SelectMenu.init options cid none none ph dis fresh).max_values = 1
  ∧ (SelectMenu.init options cid none maxA ph dis fresh).min_values = 1
  ∧ (SelectMenu.init options cid (some 0) maxA ph dis fresh).min_values = 1
  ∧ (SelectMenu.init options cid minA none ph dis fresh).max_values
      = (SelectMenu.init options cid minA none ph dis fresh).min_values
  ∧ (SelectMenu.init options cid minA (some 0) ph dis fresh).max_values
      = (SelectMenu.init options cid minA (some 0) ph dis fresh).min_values
  ∧ (SelectMenu.init options cid minA maxA ph dis fresh).min_values ≠ 0 := by
  refine ⟨rfl, rfl, rfl, by simp [SelectMenu.init, pyOrInt], rfl,
    by simp [SelectMenu.init, pyOrInt], ?_⟩
  rcases minA with _ | v
  · simp [SelectMenu.init, pyOrInt]
  · by_cases hv : v = 0
    · simp [SelectMenu.init, pyOrInt, hv]
    · simp [SelectMenu.init, pyOrInt, hv]

/-- C4 counterexample: a `Button` constructed with an explicitly supplied
`custom_id=None` (and no url) has BOTH `custom_id` and `url` unset,
contradicting "the two are never both unset". -/
theorem button_custom_id_none_counterexample :
    (Button.init (some (some "hi")) ButtonStyle.gray (some none) none (some false) "fresh0").custom_id = none
  ∧ (Button.init (some (some "hi")) ButtonStyle.gray (some none) none (some false) "fresh0").url = none :=
  ⟨rfl, rfl⟩

/-- C4 (amended): provided any explicitly supplied `custom_id` is not
`None`, exactly one of `custom_id`/`url` is populated: a `Button` always
has `url = None` and a populated `custom_id` (supplied or the generated
`fresh`); a `LinkButton` with a url has `custom_id = None` and that url;
a `LinkButton` whose url argument is `None` counts as constructed without
a url and gets the generated `custom_id`. -/
theorem button_exclusive_custom_id_url (label : Option (Option String))
    (style : ButtonStyle) (custom_id : Option (Option String)) (emoji : Option String)
    (disabled : Option Bool) (fresh : String) (urlv : String)
    (label2 : Option (Option String)) (emoji2 : Option String) (disabled2 : Option Bool)
    (fresh2 : String) (h : custom_id ≠ some none) :
    ((Button.init label style custom_id emoji disabled fresh).url = none
      ∧ (Button.init label style custom_id emoji disabled fresh).custom_id ≠ none)
  ∧ ((LinkButton.init (some urlv) label2 emoji2 disabled2 fresh2).custom_id = none
      ∧ (LinkButton.init (some urlv) label2 emoji2 disabled2 fresh2).url = some urlv)
  ∧ ((LinkButton.init none label2 emoji2 disabled2 fresh2).custom_id = some fresh2
      ∧ (LinkButton.init none label2 emoji2 disabled2 fresh2).url = none) := by
  refine ⟨⟨rfl, ?_⟩, ⟨?_, rfl⟩, ⟨rfl, rfl⟩⟩
  · rcases custom_id with _ | v
    · simp [Button.init, BaseButton.init]
    · rcases v with _ | s
      · exact absurd rfl h
      · simp [Button.init, BaseButton.init]
  · simp [LinkButton.init, BaseButton.init]

/-- C4 witness: the amended statement holds at concrete arguments whose
supplied custom_id is a string. -/
theorem button_exclusive_custom_id_url_witness :
    (some (some "cid") : Option (Option String)) ≠ some none
  ∧ (((Button.init (some (some "lb")) ButtonStyle.gray (some (some "cid")) none (some false) "fA").url = none
      ∧ (Button.init (some (some "lb")) ButtonStyle.gray (some (some "cid")) none (some false) "fA").custom_id ≠ none)
    ∧ ((LinkButton.init (some "https://x") (some (some "lc")) none (some false) "fB").custom_id = none
      ∧ (LinkButton.init (some "https://x") (some (some "lc")) none (some false) "fB").url = some "https://x")
    ∧ ((LinkButton.init none (some (some "lc")) none (some false) "fB").custom_id = some "fB"
      ∧ (LinkButton.init none (some (some "lc")) none (some false) "fB").url = none)) :=
  ⟨by simp,
   button_exclusive_custom_id_url (some (some "lb")) ButtonStyle.gray (some (some "cid"))
     none (some false) "fA" "https://x" (some (some "lc")) none (some false) "fB" (by simp)⟩

/-- C8: on a row whose single button has custom_id `"a"`, indexing by
`"a"` raises `TypeError` (the matching index list `[0]` is used directly
as a list index) instead of returning the button; indexing by an absent
custom_id raises the `KeyError`. -/
theorem actionrow_lookup_typeerror :
    ActionRow.getItemStr ⟨[.button btnA]⟩ "a" = .error .typeError
  ∧ ActionRow.get_index ⟨[.button btnA]⟩ "a" = .ok [0]
  ∧ ActionRow.getItemStr ⟨[.button btnA]⟩ "zzz" = .error (.keyError "[]") :=
  ⟨rfl, rfl, rfl⟩

/-- C5: an explicit `ActionRow` in the input list is not passed through as
one of the resulting rows: `add_row` wraps it in a plain Python list, and
serializing the store then raises `AttributeError` (a list has no
`to_dict`). -/
theorem componentstore_explicit_row_wrapped :
    ComponentStore.pack [.row ⟨[.button btnA]⟩] = [.pyList [⟨[.button btnA]⟩]]
  ∧ ComponentStore.to_dict (ComponentStore.pack [.row ⟨[.button btnA]⟩])
      = .error .attributeError :=
  ⟨rfl, rfl⟩

/-- C1: round-tripping `to_dict`/`from_dict` does NOT preserve all
populated fields: a `SelectMenu` with one option and custom_id `"menu1"`
comes back with `options = []` (the source reads the misspelled key
`"optioins"`), and a `LinkButton` with `disabled=True` comes back with
`disabled = None` (the source reads `"disabledö"`), while fields like
`custom_id` and `url` do round-trip. -/
theorem components_roundtrip_drops_fields :
    (SelectMenu.from_dict sampleMenu.to_dict "g1").options = []
  ∧ sampleMenu.options = [sampleOption]
  ∧ (SelectMenu.from_dict sampleMenu.to_dict "g1").custom_id = some "menu1"
  ∧ (BaseButton.from_dict sampleLink.to_dict "g2").disabled = none
  ∧ sampleLink.disabled = some true
  ∧ (BaseButton.from_dict sampleLink.to_dict "g2").url = some "https://example.com" :=
  ⟨rfl, rfl, rfl, rfl, rfl, rfl⟩

/-- C7: a global command inserted by `add_command`/`_add` (under the cache
key `"globals"`) cannot be removed: `remove` recomputes the path with the
key `"global"`, which is absent, so it raises `KeyError("global")` and the
command stays cached. -/
theorem commandstore_remove_global_keyerror :
    CommandStore.addOne CommandStore.emptyCache (.cmd pingGlobal)
      = .ok [("globals", [(typeKey 1, [("ping", pingGlobal)]), (typeKey 2, []), (typeKey 3, [])])]
  ∧ CommandStore.remove
      [("globals", [(typeKey 1, [("ping", pingGlobal)]), (typeKey 2, []), (typeKey 3, [])])]
      (.cmd pingGlobal)
      = .error (.keyError "global") :=
  ⟨rfl, rfl⟩

/-- C6: when the interaction's `data.id` is not a key of `_raw_cache`,
`get_interaction_command` returns `None` without raising. -/
theorem get_interaction_command_absent_id (raw : List (Nat × ApplicationCommand))
    (d : InteractionData) (h : ∀ p ∈ raw, p.1 ≠ d.id) :
    CommandStore.get_interaction_command raw d = .ok none := by
  have hf : raw.find? (fun p => p.1 == d.id) = none := by
    rw [List.find?_eq_none]
    intro p hp
    simpa using h p hp
  simp [CommandStore.get_interaction_command, hf]

/-- C6 witness: a cache holding only id 5, queried with id 7. -/
theorem get_interaction_command_absent_id_witness :
    (∀ p ∈ [(5, pingGlobal)], p.1 ≠ (7 : Nat))
  ∧ CommandStore.get_interaction_command [(5, pingGlobal)] ⟨7, none⟩ = .ok none :=
  ⟨by decide, get_interaction_command_absent_id [(5, pingGlobal)] ⟨7, none⟩ (by decide)⟩

/-- Packing invariant of `ComponentStore.packGo`, generalized over the
pending row: for menu-free pending and row-free input, every produced row
is an `ActionRow`, a row containing a select menu is exactly that
singleton, and the concatenated row contents are `pending ++ input`. -/
theorem componentstore_packGo_flat :
    ∀ (cs : List StoreComponent) (pending : List MessageComponent),
    (∀ x ∈ cs, x.isRow = false) →
    (∀ m : SelectMenu, MessageComponent.selectMenu m ∉ pending) →
    (∀ r ∈ ComponentStore.packGo cs pending,
        ∃ a : ActionRow, r = .actionRow a
          ∧ ∀ m : SelectMenu, MessageComponent.selectMenu m ∈ a.components →
              a.components = [.selectMenu m])
  ∧ (ComponentStore.packGo cs pending).flatMap StoreRow.flat
      = pending ++ StoreComponent.flatInput cs
  | [], pending, _, hp => by
      by_cases h0 : pending.length > 0
      · constructor
        · intro r hr
          simp only [ComponentStore.packGo, if_pos h0, List.mem_singleton] at hr
          subst hr
          exact ⟨⟨pending⟩, rfl, fun m hm => absurd hm (hp m)⟩
        · simp [ComponentStore.packGo, if_pos h0, StoreRow.flat, StoreComponent.flatInput]
      · have hpe : pending = [] := by
          cases pending with
          | nil => rfl
          | cons a l => simp at h0
        subst hpe
        constructor
        · intro r hr
          simp [ComponentStore.packGo] at hr
        · simp [ComponentStore.packGo, StoreComponent.flatInput]
  | .comp (.button b) :: rest, pending, h, hp => by
      have hrest : ∀ x ∈ rest, x.isRow = false :=
        fun x hx => h x (List.mem_cons_of_mem _ hx)
      have hp2 : ∀ m : SelectMenu, MessageComponent.selectMenu m ∉ pending ++ [.button b] := by
        intro m hm
        rcases List.mem_append.mp hm with h1 | h1
        · exact hp m h1
        · simp at h1
      have ih := componentstore_packGo_flat rest (pending ++ [.button b]) hrest hp2
      constructor
      · intro r hrr
        exact ih.1 r (by simpa [ComponentStore.packGo] using hrr)
      · simp only [ComponentStore.packGo]
        rw [ih.2]
        simp [StoreComponent.flatInput, List.append_assoc]
  | .comp (.selectMenu m) :: rest, pending, h, hp => by
      have hrest : ∀ x ∈ rest, x.isRow = false :=
        fun x hx => h x (List.mem_cons_of_mem _ hx)
      have ih := componentstore_packGo_flat rest [] hrest (by intro m2 hm2; simp at hm2)
      constructor
      · intro r hrr
        simp only [ComponentStore.packGo] at hrr
        rcases List.mem_append.mp hrr with h1 | h1
        · by_cases h0 : pending.length > 0
          · simp only [if_pos h0, List.mem_singleton] at h1
            subst h1
            exact ⟨⟨pending⟩, rfl, fun m2 hm2 => absurd hm2 (hp m2)⟩
          · simp [if_neg h0] at h1
        · rcases List.mem_cons.mp h1 with h2 | h2
          · subst h2
            refine ⟨⟨[.selectMenu m]⟩, rfl, ?_⟩
            intro m2 hm2
            simp only [List.mem_singleton] at hm2
            rw [hm2]
          · exact ih.1 r h2
      · simp only [ComponentStore.packGo]
        by_cases h0 : pending.length > 0
        · simp only [if_pos h0]
          simp [StoreRow.flat, ih.2, StoreComponent.flatInput]
        · have hpe : pending = [] := by
            cases pending with
            | nil => rfl
            | cons a l => simp at h0
          subst hpe
          simp only [if_neg h0]
          simp [StoreRow.flat, ih.2, StoreComponent.flatInput]
  | .row r0 :: rest, pending, h, hp => by
      have := h (.row r0) (List.mem_cons_self _ _)
      simp [StoreComponent.isRow] at this

/-- C2: packing a flat list of buttons and select menus produces only
`ActionRow` rows, a row containing a select menu contains exactly that
menu and nothing else, and concatenating the rows' components in row order
reproduces the input sequence. -/
theorem componentstore_pack_partition (cs : List StoreComponent)
    (h : ∀ x ∈ cs, x.isRow = false) :
    (∀ r ∈ ComponentStore.pack cs,
        ∃ a : ActionRow, r = .actionRow a
          ∧ ∀ m : SelectMenu, MessageComponent.selectMenu m ∈ a.components →
              a.components = [.selectMenu m])
  ∧ (ComponentStore.pack cs).flatMap StoreRow.flat = StoreComponent.flatInput cs := by
  have hmain := componentstore_packGo_flat cs [] h (by intro m hm; simp at hm)
  exact ⟨hmain.1, by simpa using hmain.2⟩

/-- C2 witness: a button, a select menu, and another button. -/
theorem componentstore_pack_partition_witness :
    (∀ x ∈ [StoreComponent.comp (.button btnA), StoreComponent.comp (.selectMenu menuSample),
        StoreComponent.comp (.button btnB)], x.isRow = false)
  ∧ ((∀ r ∈ ComponentStore.pack [StoreComponent.comp (.button btnA),
        StoreComponent.comp (.selectMenu menuSample), StoreComponent.comp (.button btnB)],
        ∃ a : ActionRow, r = .actionRow a
          ∧ ∀ m : SelectMenu, MessageComponent.selectMenu m ∈ a.components →
              a.components = [.selectMenu m])
    ∧ (ComponentStore.pack [StoreComponent.comp (.button btnA),
        StoreComponent.comp (.selectMenu menuSample),
        StoreComponent.comp (.button btnB)]).flatMap StoreRow.flat
        = StoreComponent.flatInput [StoreComponent.comp (.button btnA),
            StoreComponent.comp (.selectMenu menuSample),
            StoreComponent.comp (.button btnB)]) :=
  ⟨by decide, componentstore_pack_partition _ (by decide)⟩

/-- `idZip` distributes over append, shifting the second start. -/
theorem idZip_append (l1 l2 : List ApplicationCommand) :
    ∀ k, idZip k (l1 ++ l2) = idZip k l1 ++ idZip (k + l1.length) l2 := by
  induction l1 with
  | nil => intro k; simp [idZip]
  | cons c cs ih =>
      intro k
      simp only [List.cons_append, idZip, List.length_cons, List.append_eq]
      rw [ih (k + 1)]
      have hk : k + 1 + cs.length = k + (cs.length + 1) := by omega
      rw [hk]

/-- A global command absent from the remote snapshot is created and gets
the next fresh id. -/
theorem syncOneGlobal_miss (remoteG : List RemoteCommand) (st : SyncState)
    (base : ApplicationCommand) (h : findRemote remoteG base.name base.type = none) :
    syncOneGlobal remoteG st base
      = .ok (⟨st.calls ++ [.createGlobal base.to_dict],
              st.raw ++ [(st.ctr, { base with id := some st.ctr })],
              st.ctr + 1⟩,
             { base with id := some st.ctr }) := by
  simp [syncOneGlobal, h]

/-- Global loop over a bucket with no remote counterparts: one create per
entry, ids consecutive, entries updated in place. -/
theorem syncGlobalsEntries_miss (remoteG : List RemoteCommand) :
    ∀ (nm : NameMap) (st : SyncState),
    (∀ p ∈ nm, findRemote remoteG p.2.name p.2.type = none) →
    syncGlobalsEntries remoteG nm st
      = .ok (⟨st.calls ++ nm.map (fun p => .createGlobal p.2.to_dict),
              st.raw ++ idZip st.ctr (nm.map (·.2)),
              st.ctr + nm.length⟩,
             updEntries st.ctr nm)
  | [], st, _ => by
      cases st
      simp [syncGlobalsEntries, idZip, updEntries]
  | (n, c) :: rest, st, h => by
      have h1 : findRemote remoteG c.name c.type = none := h (n, c) (List.mem_cons_self _ _)
      have hrest : ∀ p ∈ rest, findRemote remoteG p.2.name p.2.type = none :=
        fun p hp => h p (List.mem_cons_of_mem _ hp)
      have hrec := syncGlobalsEntries_miss remoteG rest
        ⟨st.calls ++ [.createGlobal c.to_dict],
         st.raw ++ [(st.ctr, { c with id := some st.ctr })], st.ctr + 1⟩ hrest
      simp only [syncGlobalsEntries, syncOneGlobal_miss remoteG st c h1, hrec]
      simp [idZip, updEntries, List.append_assoc]
      omega

/-- Global loop over the type buckets with no remote counterparts. -/
theorem syncGlobalsBuckets_miss (remoteG : List RemoteCommand) :
    ∀ (tm : TypeMap) (st : SyncState),
    (∀ c ∈ bucketCmds tm, findRemote remoteG c.name c.type = none) →
    syncGlobalsBuckets remoteG tm st
      = .ok (⟨st.calls ++ (bucketCmds tm).map (fun c => .createGlobal c.to_dict),
              st.raw ++ idZip st.ctr (bucketCmds tm),
              st.ctr + (bucketCmds tm).length⟩,
             updBuckets st.ctr tm)
  | [], st, _ => by
      cases st
      simp [syncGlobalsBuckets, bucketCmds, idZip, updBuckets]
  | (tk, nm) :: rest, st, h => by
      have hsplit : bucketCmds ((tk, nm) :: rest) = nm.map (·.2) ++ bucketCmds rest := by
        simp [bucketCmds]
      have hnm : ∀ p ∈ nm, findRemote remoteG p.2.name p.2.type = none := by
        intro p hp
        apply h
        rw [hsplit]
        exact List.mem_append_left _ (List.mem_map_of_mem _ hp)
      have hrest : ∀ c ∈ bucketCmds rest, findRemote remoteG c.name c.type = none := by
        intro c hc
        apply h
        rw [hsplit]
        exact List.mem_append_right _ hc
      have hrec := syncGlobalsBuckets_miss remoteG rest
        ⟨st.calls ++ nm.map (fun p => .createGlobal p.2.to_dict),
         st.raw ++ idZip st.ctr (nm.map (·.2)), st.ctr + nm.length⟩ hrest
      simp only [syncGlobalsBuckets, syncGlobalsEntries_miss remoteG nm st hnm, hrec]
      simp [hsplit, updBuckets, idZip_append, List.append_assoc]
      omega

/-- A guild command absent from its guild's remote snapshot is created
(the `or` condition already holds) and gets the next fresh id. -/
theorem syncOneGuild_miss (remoteG rg : List RemoteCommand) (guild : String)
    (st : SyncState) (base : ApplicationCommand)
    (h : findRemote rg base.name base.type = none) :
    syncOneGuild remoteG rg guild st base
      = .ok (⟨st.calls ++ [.createGuild base.to_dict guild base.permissions.to_dict],
              st.raw ++ [(st.ctr, { base with id := some st.ctr })],
              st.ctr + 1⟩,
             { base with id := some st.ctr }) := by
  simp [syncOneGuild, h]

/-- Guild loop over a bucket with no remote counterparts. -/
theorem syncGuildEntries_miss (remoteG rg : List RemoteCommand) (guild : String) :
    ∀ (nm : NameMap) (st : SyncState),
    (∀ p ∈ nm, findRemote rg p.2.name p.2.type = none) →
    syncGuildEntries remoteG rg guild nm st
      = .ok (⟨st.calls ++ nm.map (fun p => .createGuild p.2.to_dict guild p.2.permissions.to_dict),
              st.raw ++ idZip st.ctr (nm.map (·.2)),
              st.ctr + nm.length⟩,
             updEntries st.ctr nm)
  | [], st, _ => by
      cases st
      simp [syncGuildEntries, idZip, updEntries]
  | (n, c) :: rest, st, h => by
      have h1 : findRemote rg c.name c.type = none := h (n, c) (List.mem_cons_self _ _)
      have hrest : ∀ p ∈ rest, findRemote rg p.2.name p.2.type = none :=
        fun p hp => h p (List.mem_cons_of_mem _ hp)
      have hrec := syncGuildEntries_miss remoteG rg guild rest
        ⟨st.calls ++ [.createGuild c.to_dict guild c.permissions.to_dict],
         st.raw ++ [(st.ctr, { c with id := some st.ctr })], st.ctr + 1⟩ hrest
      simp only [syncGuildEntries, syncOneGuild_miss remoteG rg guild st c h1, hrec]
      simp [idZip, updEntries, List.append_assoc]
      omega

/-- Guild loop over the type buckets of one guild with no remote
counterparts. -/
theorem syncGuildBuckets_miss (remoteG rg : List RemoteCommand) (guild : String) :
    ∀ (tm : TypeMap) (st : SyncState),
    (∀ c ∈ bucketCmds tm, findRemote rg c.name c.type = none) →
    syncGuildBuckets remoteG rg guild tm st
      = .ok (⟨st.calls ++ (bucketCmds tm).map (fun c => .createGuild c.to_dict guild c.permissions.to_dict),
              st.raw ++ idZip st.ctr (bucketCmds tm),
              st.ctr + (bucketCmds tm).length⟩,
             updBuckets st.ctr tm)
  | [], st, _ => by
      cases st
      simp [syncGuildBuckets, bucketCmds, idZip, updBuckets]
  | (tk, nm) :: rest, st, h => by
      have hsplit : bucketCmds ((tk, nm) :: rest) = nm.map (·.2) ++ bucketCmds rest := by
        simp [bucketCmds]
      have hnm : ∀ p ∈ nm, findRemote rg p.2.name p.2.type = none := by
        intro p hp
        apply h
        rw [hsplit]
        exact List.mem_append_left _ (List.mem_map_of_mem _ hp)
      have hrest : ∀ c ∈ bucketCmds rest, findRemote rg c.name c.type = none := by
        intro c hc
        apply h
        rw [hsplit]
        exact List.mem_append_right _ hc
      have hrec := syncGuildBuckets_miss remoteG rg guild rest
        ⟨st.calls ++ nm.map (fun p => .createGuild p.2.to_dict guild p.2.permissions.to_dict),
         st.raw ++ idZip st.ctr (nm.map (·.2)), st.ctr + nm.length⟩ hrest
      simp only [syncGuildBuckets, syncGuildEntries_miss remoteG rg guild nm st hnm, hrec]
      simp [hsplit, updBuckets, idZip_append, List.append_assoc]
      omega

/-- Guild loop over all guild scopes with no remote counterparts. -/
theorem syncGuildsList_miss (remoteG : List RemoteCommand)
    (remoteGuilds : List (String × List RemoteCommand)) (cache : StoreCache) :
    ∀ (gkeys : List String) (st : SyncState),
    (∀ p ∈ guildCmdsOf cache gkeys,
        findRemote ((assocFind remoteGuilds p.1).getD []) p.2.name p.2.type = none) →
    syncGuildsList remoteG remoteGuilds cache gkeys st
      = .ok (⟨st.calls ++ (guildCmdsOf cache gkeys).map
                (fun p => .createGuild p.2.to_dict p.1 p.2.permissions.to_dict),
              st.raw ++ idZip st.ctr ((guildCmdsOf cache gkeys).map (·.2)),
              st.ctr + (guildCmdsOf cache gkeys).length⟩,
             updGuilds cache st.ctr gkeys)
  | [], st, _ => by
      cases st
      simp [syncGuildsList, guildCmdsOf, idZip, updGuilds]
  | g :: rest, st, h => by
      have hsplit : guildCmdsOf cache (g :: rest)
          = (bucketCmds ((assocFind cache g).getD [])).map (fun c => (g, c))
            ++ guildCmdsOf cache rest := by
        simp [guildCmdsOf]
      have hg : ∀ c ∈ bucketCmds ((assocFind cache g).getD []),
          findRemote ((assocFind remoteGuilds g).getD []) c.name c.type = none := by
        intro c hc
        have := h (g, c) (by rw [hsplit]; exact List.mem_append_left _ (List.mem_map_of_mem _ hc))
        simpa using this
      have hrest : ∀ p ∈ guildCmdsOf cache rest,
          findRemote ((assocFind remoteGuilds p.1).getD []) p.2.name p.2.type = none := by
        intro p hp
        exact h p (by rw [hsplit]; exact List.mem_append_right _ hp)
      have hbk := syncGuildBuckets_miss remoteG ((assocFind remoteGuilds g).getD []) g
        ((assocFind cache g).getD []) st hg
      have hrec := syncGuildsList_miss remoteG remoteGuilds cache rest
        ⟨st.calls ++ (bucketCmds ((assocFind cache g).getD [])).map
            (fun c => .createGuild c.to_dict g c.permissions.to_dict),
         st.raw ++ idZip st.ctr (bucketCmds ((assocFind cache g).getD [])),
         st.ctr + (bucketCmds ((assocFind cache g).getD [])).length⟩ hrest
      simp only [syncGuildsList, hbk, hrec]
      simp [hsplit, updGuilds, idZip_append, List.append_assoc, List.map_map, Function.comp]
      omega

/-- Every pair produced by `idZip` carries its id on the command. -/
theorem idZip_mem_id : ∀ (l : List ApplicationCommand) (k : Nat),
    ∀ pr ∈ idZip k l, pr.2.id = some pr.1
  | [], _, pr, hpr => by simp [idZip] at hpr
  | c :: cs, k, pr, hpr => by
      simp only [idZip, List.mem_cons] at hpr
      rcases hpr with h | h
      · subst h; rfl
      · exact idZip_mem_id cs (k + 1) pr h

/-- C3: a `sync` on a store that was never synced, against a remote with
no counterpart for any locally registered command, issues exactly one
create call per local command entry (globals first, then guild entries, in
cache order) and no other calls — in particular zero edit calls — and
afterwards every command carries the id its create returned, both in the
rebuilt `_raw_cache` and in the store's cache. -/
theorem commandstore_sync_fresh (cache : StoreCache) (remoteG : List RemoteCommand)
    (remoteGuilds : List (String × List RemoteCommand)) (stateGuilds : List String)
    (idStart : Nat) (gmap : TypeMap)
    (hG : assocFind cache "globals" = some gmap)
    (h1 : ∀ c ∈ bucketCmds gmap, findRemote remoteG c.name c.type = none)
    (h2 : ∀ p ∈ guildCmdsOf cache (gkeysOf cache),
        findRemote ((assocFind remoteGuilds p.1).getD []) p.2.name p.2.type = none)
    (_hglobal : ∀ p ∈ guildCmdsOf cache (gkeysOf cache),
        findRemote remoteG p.2.name p.2.type = none) :
    CommandStore.sync cache remoteG remoteGuilds stateGuilds idStart false
      = .ok ⟨(bucketCmds gmap).map (fun c => .createGlobal c.to_dict)
              ++ (guildCmdsOf cache (gkeysOf cache)).map
                  (fun p => .createGuild p.2.to_dict p.1 p.2.permissions.to_dict),
             idZip idStart (bucketCmds gmap ++ (guildCmdsOf cache (gkeysOf cache)).map (·.2)),
             rebuildCache cache (updBuckets idStart gmap)
               (updGuilds cache (idStart + (bucketCmds gmap).length) (gkeysOf cache))⟩
  ∧ (∀ k ∈ (bucketCmds gmap).map (fun c => HttpCall.createGlobal c.to_dict)
        ++ (guildCmdsOf cache (gkeysOf cache)).map
            (fun p => HttpCall.createGuild p.2.to_dict p.1 p.2.permissions.to_dict),
      k.isEdit = false ∧ k.isCreate = true)
  ∧ (∀ pr ∈ idZip idStart (bucketCmds gmap ++ (guildCmdsOf cache (gkeysOf cache)).map (·.2)),
      pr.2.id = some pr.1) := by
  refine ⟨?_, ?_, ?_⟩
  · have hg := syncGlobalsBuckets_miss remoteG gmap ⟨[], [], idStart⟩ h1
    have hl := syncGuildsList_miss remoteG remoteGuilds cache (gkeysOf cache)
      ⟨[] ++ (bucketCmds gmap).map (fun c => .createGlobal c.to_dict),
       [] ++ idZip idStart (bucketCmds gmap),
       idStart + (bucketCmds gmap).length⟩ h2
    simp only [CommandStore.sync, hG, hg, hl]
    simp [idZip_append, List.append_assoc]
  · intro k hk
    rcases List.mem_append.mp hk with h | h
    · obtain ⟨c, _, rfl⟩ := List.mem_map.mp h
      exact ⟨rfl, rfl⟩
    · obtain ⟨p, _, rfl⟩ := List.mem_map.mp h
      exact ⟨rfl, rfl⟩
  · intro pr hpr
    exact idZip_mem_id _ idStart pr hpr

/-- C3 witness: one global command and one guild command, empty remote. -/
theorem commandstore_sync_fresh_witness :
    assocFind witnessCache "globals" = some witnessGlobals
  ∧ (∀ c ∈ bucketCmds witnessGlobals, findRemote [] c.name c.type = none)
  ∧ (∀ p ∈ guildCmdsOf witnessCache (gkeysOf witnessCache),
      findRemote ((assocFind ([] : List (String × List RemoteCommand)) p.1).getD [])
        p.2.name p.2.type = none)
  ∧ (∀ p ∈ guildCmdsOf witnessCache (gkeysOf witnessCache),
      findRemote [] p.2.name p.2.type = none)
  ∧ (CommandStore.sync witnessCache [] [] [] 100 false
      = .ok ⟨(bucketCmds witnessGlobals).map (fun c => .createGlobal c.to_dict)
              ++ (guildCmdsOf witnessCache (gkeysOf witnessCache)).map
                  (fun p => .createGuild p.2.to_dict p.1 p.2.permissions.to_dict),
             idZip 100 (bucketCmds witnessGlobals
               ++ (guildCmdsOf witnessCache (gkeysOf witnessCache)).map (·.2)),
             rebuildCache witnessCache (updBuckets 100 witnessGlobals)
               (updGuilds witnessCache (100 + (bucketCmds witnessGlobals).length)
                 (gkeysOf witnessCache))⟩
    ∧ (∀ k ∈ (bucketCmds witnessGlobals).map (fun c => HttpCall.createGlobal c.to_dict)
          ++ (guildCmdsOf witnessCache (gkeysOf witnessCache)).map
              (fun p => HttpCall.createGuild p.2.to_dict p.1 p.2.permissions.to_dict),
        k.isEdit = false ∧ k.isCreate = true)
    ∧ (∀ pr ∈ idZip 100 (bucketCmds witnessGlobals
          ++ (guildCmdsOf witnessCache (gkeysOf witnessCache)).map (·.2)),
        pr.2.id = some pr.1)) :=
  ⟨rfl, by decide, by decide, by decide,
   commandstore_sync_fresh witnessCache [] [] [] 100 witnessGlobals rfl
     (by decide) (by decide) (by decide)⟩
